import Mathlib

/-!
Verification development for the IV-curve transport-measurement analysis
engine (`qkit/analysis/IV_curve3.py`).  Numpy floating-point scalars are
embedded as `RVal` (rational value, NaN, or signed infinity); ragged trace
collections as lists of `RVal` lists; fallible Python evaluation as
`Except String`.  Every definition mirrors a concrete place in the source,
cited by line numbers in its doc comment.
-/

/-- Embedding of a numpy float64 scalar: a rational value, NaN, or a signed
infinity.  NaN propagates through arithmetic and makes every comparison
false, as in IEEE-754 / numpy. -/
inductive RVal where
  | nan
  | inf
  | ninf
  | val (q : ℚ)
deriving DecidableEq, Repr

namespace RVal

/-- Test for the NaN scalar (numpy `np.isnan`). -/
def isNan : RVal → Bool
  | nan => true
  | _ => false

/-- Numpy negation on the scalar embedding. -/
def neg : RVal → RVal
  | nan => nan
  | inf => ninf
  | ninf => inf
  | val q => val (-q)

/-- Numpy addition: NaN propagates, opposite infinities give NaN. -/
def add : RVal → RVal → RVal
  | nan, _ => nan
  | _, nan => nan
  | inf, ninf => nan
  | ninf, inf => nan
  | inf, _ => inf
  | _, inf => inf
  | ninf, _ => ninf
  | _, ninf => ninf
  | val a, val b => val (a + b)

/-- Numpy subtraction, defined as addition of the negation. -/
def sub (a b : RVal) : RVal := add a (neg b)

/-- Numpy multiplication: NaN propagates, infinity times zero is NaN. -/
def mul : RVal → RVal → RVal
  | nan, _ => nan
  | _, nan => nan
  | inf, inf => inf
  | inf, ninf => ninf
  | ninf, inf => ninf
  | ninf, ninf => inf
  | inf, val q => if 0 < q then inf else if q < 0 then ninf else nan
  | val q, inf => if 0 < q then inf else if q < 0 then ninf else nan
  | ninf, val q => if 0 < q then ninf else if q < 0 then inf else nan
  | val q, ninf => if 0 < q then ninf else if q < 0 then inf else nan
  | val a, val b => val (a * b)

/-- Numpy division: NaN propagates, finite over zero gives a signed infinity
(`0/0` gives NaN), finite over infinity gives zero, infinity over infinity
gives NaN. -/
def div : RVal → RVal → RVal
  | nan, _ => nan
  | _, nan => nan
  | inf, inf => nan
  | inf, ninf => nan
  | ninf, inf => nan
  | ninf, ninf => nan
  | inf, val q => if q < 0 then ninf else inf
  | ninf, val q => if q < 0 then inf else ninf
  | val _, inf => val 0
  | val _, ninf => val 0
  | val a, val b =>
    if b = 0 then (if a = 0 then nan else if 0 < a then inf else ninf)
    else val (a / b)

/-- Numpy `<=` comparison as a Bool: any comparison involving NaN is false. -/
def leB : RVal → RVal → Bool
  | nan, _ => false
  | _, nan => false
  | ninf, _ => true
  | _, inf => true
  | inf, _ => false
  | _, ninf => false
  | val a, val b => decide (a ≤ b)

/-- Binary maximum on non-NaN scalars (used by `nanmax` after NaN removal). -/
def maxR (a b : RVal) : RVal := if leB a b then b else a

/-- Binary minimum on non-NaN scalars (used by `nanmin` after NaN removal). -/
def minR (a b : RVal) : RVal := if leB a b then a else b

end RVal

/-- Numpy `np.sum`-style fold over the scalar embedding. -/
def sumR (l : List RVal) : RVal := l.foldl RVal.add (RVal.val 0)

/-- Numpy `np.mean`: NaN-propagating mean; the mean of an empty array is NaN
(numpy warns and returns NaN). -/
def meanR (l : List RVal) : RVal :=
  if l.length = 0 then RVal.nan else RVal.div (sumR l) (RVal.val l.length)

/-- Numpy `np.nanmean`: mean of the non-NaN entries; NaN when all entries are
NaN (numpy warns and returns NaN). -/
def nanmeanR (l : List RVal) : RVal := meanR (l.filter (fun v => !v.isNan))

/-- Numpy `np.nanmax`: maximum of the non-NaN entries; NaN for an all-NaN
array (numpy warns and returns NaN). -/
def nanmaxR (l : List RVal) : RVal :=
  match l.filter (fun v => !v.isNan) with
  | [] => RVal.nan
  | h :: t => t.foldl RVal.maxR h

/-- Numpy `np.nanmin`: minimum of the non-NaN entries; NaN for an all-NaN
array (numpy warns and returns NaN). -/
def nanminR (l : List RVal) : RVal :=
  match l.filter (fun v => !v.isNan) with
  | [] => RVal.nan
  | h :: t => t.foldl RVal.minR h

/-- Numpy integer indexing of a 1-D array: negative indices wrap once from
the end; anything else out of range raises IndexError. -/
def pyGet (l : List RVal) (i : ℤ) : Except String RVal :=
  let n : ℤ := l.length
  let j := if i < 0 then i + n else i
  if 0 ≤ j ∧ j < n then .ok (l.getD j.toNat RVal.nan)
  else .error "IndexError: index out of bounds"

/-- Row access `arr[j]` on a 2-D collection; out of range raises IndexError. -/
def getRow (m : List (List RVal)) (j : ℕ) : Except String (List RVal) :=
  match m.get? j with
  | some r => .ok r
  | none => .error "IndexError: index out of bounds"

/-- Pointwise zip of three lists, stopping at the shortest (Python `map`
over several iterables). -/
def zip3 {α β γ : Type} : List α → List β → List γ → List (α × β × γ)
  | a :: as, b :: bs, c :: cs => (a, b, c) :: zip3 as bs cs
  | _, _, _ => []

/-- Pointwise zip of four lists, stopping at the shortest (Python `map`
over several iterables). -/
def zip4 {α β γ δ : Type} : List α → List β → List γ → List δ → List (α × β × γ × δ)
  | a :: as, b :: bs, c :: cs, d :: ds => (a, b, c, d) :: zip4 as bs cs ds
  | _, _, _, _ => []

/-- Elements of even index, numpy `arr[::2]`. -/
def evens {α : Type} (l : List α) : List α :=
  (l.enum.filter (fun p => p.1 % 2 = 0)).map Prod.snd

/-- Elements of odd index, numpy `arr[1::2]`. -/
def odds {α : Type} (l : List α) : List α :=
  (l.enum.filter (fun p => p.1 % 2 = 1)).map Prod.snd

/-- Sweep descriptor `(start, stop, step)` as produced by the transport
measurement class and consumed by `get_sweeptype` (lines 288-314). -/
structure Sweep where
  start : ℚ
  stop : ℚ
  step : ℚ
deriving DecidableEq, Repr

/-- Componentwise test `np.array(sweeps[j])[[1, 0, 2]] == np.array(sweeps[j+1])[:3]`
of lines 306 and 310: the first sweep reordered as (stop, start, step) equals
the second sweep's (start, stop, step). -/
def hsPair (a b : Sweep) : Bool :=
  decide (a.stop = b.start) && decide (a.start = b.stop) && decide (a.step = b.step)

/-- Embedding of `get_sweeptype` (lines 302-314).  `cur` is the incoming
`self.sweeptype` attribute.  The source's `if len(sweeps) == 2:` and
`elif len(sweeps) == 4:` branches assign `self.sweeptype` only when the inner
relation holds (lines 305-311); the trailing `else:` (lines 312-313) covers
every other length; line 314 returns `self.sweeptype`, so on a 2- or 4-sweep
mismatch the previously stored value is returned unchanged. -/
def get_sweeptype (cur : Option ℕ) (sweeps : List Sweep) : Option ℕ :=
  match sweeps with
  | [s0, s1] => if hsPair s0 s1 then some 0 else cur
  | [s0, s1, s2, s3] => if hsPair s0 s1 && hsPair s2 s3 then some 1 else cur
  | _ => none

/-- Maximal trace length, the trailing entry of `np.max([... shape ...], axis=0)`
in line 134 for a scan-dimension-1 trace family. -/
def maxLenT (ts : List (List RVal)) : ℕ := ts.foldr (fun t m => max t.length m) 0

/-- Per-trace padding of lines 144-154: `pad_width` is the length defect
against the maximal trace length; when it is zero the trace is stored as is
(lines 150-154), otherwise `np.pad(..., constant_values=np.nan)` right-pads
with NaN (lines 146-149). -/
def padTrace (m : ℕ) (t : List RVal) : List RVal :=
  if m - t.length = 0 then t else t ++ List.replicate (m - t.length) RVal.nan

/-- Trace-family assembly of `load` (lines 134-154) for one physical
quantity: every trace of the family is padded to the maximal observed
length. -/
def assemble (ts : List (List RVal)) : List (List RVal) :=
  ts.map (padTrace (maxLenT ts))

/-- Embedding of `get_dydx` for omitted `x` (lines 395-401): try the strategy
on the full array; if it raises, differentiate the non-NaN entries
(boolean-mask select `y[np.logical_not(y_nans)]`) and concatenate the NaN
entries `y[y_nans]` back (line 401).  A failure of the strategy on the
stripped array propagates, as in the source (the fallback is outside the
`try`). -/
def get_dydx_noX (mode : List RVal → Except String (List RVal)) (y : List RVal) :
    Except String (List RVal) :=
  match mode y with
  | .ok r => .ok r
  | .error _ =>
    match mode (y.filter (fun v => !v.isNan)) with
    | .ok d => .ok (d ++ y.filter (fun v => v.isNan))
    | .error e2 => .error e2

/-- Numpy elementwise division of two 1-D arrays, with length-1 broadcast;
incompatible lengths raise ValueError. -/
def elemDiv (a b : List RVal) : Except String (List RVal) :=
  if a.length = b.length then .ok (List.zipWith RVal.div a b)
  else if b.length = 1 then .ok (a.map (fun v => RVal.div v (b.headD RVal.nan)))
  else if a.length = 1 then .ok (b.map (fun v => RVal.div (a.headD RVal.nan) v))
  else .error "ValueError: operands could not be broadcast together"

/-- Embedding of `get_dydx` with `x` given (lines 402-409): try
`mode(y)/mode(x)`; if anything in that expression raises, strip the NaN
entries of both arrays, differentiate, re-append the NaN entries, and divide
(line 409). -/
def get_dydx_x (mode : List RVal → Except String (List RVal)) (y x : List RVal) :
    Except String (List RVal) :=
  match (do
      let dy ← mode y
      let dx ← mode x
      elemDiv dy dx : Except String (List RVal)) with
  | .ok r => .ok r
  | .error _ => do
    let dy ← mode (y.filter (fun v => !v.isNan))
    let dx ← mode (x.filter (fun v => !v.isNan))
    elemDiv (dy ++ y.filter (fun v => v.isNan)) (dx ++ x.filter (fun v => v.isNan))

/-- State of the three collections `self.I`, `self.V`, `self.dVdI` during the
`load` assembly loop of lines 135-154.  They are created by `np.empty(shape)`
(line 135), so before row `j` is assigned its contents are unspecified
leftover memory; the model makes those initial contents explicit. -/
structure LoadArrays where
  ldI : List (List RVal)
  ldV : List (List RVal)
  ldD : List (List RVal)
deriving DecidableEq, Repr

/-- Numpy row assignment `arr[j] = r`: the replacement must match the row
length, otherwise numpy raises a broadcast ValueError. -/
def setRow (m : List (List RVal)) (j : ℕ) (r : List RVal) :
    Except String (List (List RVal)) :=
  match m.get? j with
  | none => .error "IndexError: index out of bounds"
  | some old =>
    if r.length = old.length then .ok (m.set j r)
    else .error "ValueError: could not broadcast input array"

/-- Right-pad by `p` NaN entries when `p` is nonzero (the
`if pad_width.any():` test of line 145 with `np.pad` of lines 146-149). -/
def padBy (p : ℕ) (t : List RVal) : List RVal :=
  if p = 0 then t else t ++ List.replicate p RVal.nan

/-- One iteration of the `load` assembly loop (lines 136-154, scan dimension
1) for sweep `j`: `iTr`/`vTr` are the traces read from the file (lines
137-138); `dvdiDs` is the stored dV/dI dataset, `none` when the lookup
raises KeyError; in that case line 143 computes
`self.get_dydx(x=self.I[j], y=self.V[j])` - note: from the CURRENT contents
of `self.I[j]` and `self.V[j]`, which are assigned only afterwards in lines
146-154.  The differentiation strategy is a parameter (`get_dydx` is
strategy-pluggable; `load` uses its default).  `pad_width` is computed from
`iTr` alone (line 144) and applied to all three rows. -/
def load_body (mode : List RVal → Except String (List RVal)) (maxL : ℕ)
    (st : LoadArrays) (j : ℕ) (iTr vTr : List RVal)
    (dvdiDs : Option (List RVal)) (useDvdi : Bool) :
    Except String LoadArrays := do
  let dvdi ← (if useDvdi then
      match dvdiDs with
      | some d => Except.ok d
      | none => get_dydx_x mode (st.ldV.getD j []) (st.ldI.getD j [])
    else Except.ok [])
  let p := maxL - iTr.length
  let i1 ← setRow st.ldI j (padBy p iTr)
  let v1 ← setRow st.ldV j (padBy p vTr)
  if useDvdi then do
    let d1 ← setRow st.ldD j (padBy p dvdi)
    Except.ok ⟨i1, v1, d1⟩
  else
    Except.ok ⟨i1, v1, st.ldD⟩

/-- Elementwise window mask `x >= lo && x <= hi` on one trace (lines 440,
632, 646): NaN entries fail both comparisons. -/
def maskRow (lo hi : ℚ) (r : List RVal) : List Bool :=
  r.map (fun v => RVal.leB (RVal.val lo) v && RVal.leB v (RVal.val hi))

/-- The `np.place(arr, np.logical_not(mask), np.nan)` step applied to a copy
of a trace (lines 441-443, 647-649): entries outside the mask become NaN. -/
def placeRow (r : List RVal) (m : List Bool) : List RVal :=
  List.zipWith (fun v b => if b then v else RVal.nan) r m

/-- Embedding of the computation inside `get_offsets` (lines 411-467) for
scan dimension 1 (so `axis=self.scan_dim` is the sweep-point axis of each
trace and `axis=self.scan_dim-1` collapses a single trace to a scalar).
`x`/`y` are the driven/response collections after the bias-dependent default
substitution of lines 435-438; the mask window is `[-threshold+offset,
threshold+offset]` (line 440); masking acts on `np.copy`-created arrays
(lines 441-443), so the inputs are not modified.  Halfswing (lines 444-453)
takes min-over-window of sweep 0 and max of sweep 1 (critical) or the
complementary extrema (retrapping, `yr=True`); 4-quadrant (lines 454-463)
pairs sweeps (0,2) resp. (1,3); a custom sweeptype raises
NotImplementedError (line 465).  The final bias-dependent swap models
`[x_offsets, y_offsets][::int(np.sign(self.bias - .5))]` (line 466). -/
def offsets_core (sweeptype : Option ℕ) (bias : ℕ) (x y : List (List RVal))
    (threshold offset : ℚ) (yr : Bool) : Except String (RVal × RVal) :=
  let lo := -threshold + offset
  let hi := threshold + offset
  let masks := x.map (maskRow lo hi)
  let xc := List.zipWith placeRow x masks
  let yc := List.zipWith placeRow y masks
  match sweeptype with
  | some 0 => do
    let xo := meanR (xc.map nanmeanR)
    let r0 ← getRow yc 0
    let r1 ← getRow yc 1
    let yo := if yr then meanR [nanmaxR r0, nanminR r1]
      else meanR [nanminR r0, nanmaxR r1]
    Except.ok (if bias = 0 then (yo, xo) else (xo, yo))
  | some 1 => do
    let xo := meanR (xc.map nanmeanR)
    let yo ← (if yr then do
        let r1 ← getRow yc 1
        let r3 ← getRow yc 3
        Except.ok (meanR [nanmaxR r1, nanminR r3])
      else do
        let r0 ← getRow yc 0
        let r2 ← getRow yc 2
        Except.ok (meanR [nanmaxR r0, nanminR r2]))
    Except.ok (if bias = 0 then (yo, xo) else (xo, yo))
  | _ => .error "NotImplementedError: No algorithm implemented for custom sweeptype"

/-- The slice of the analysis context read and written by offset estimation:
bias mode, sweeptype, the loaded collections `self.I`/`self.V`, and the four
cached offset attributes. -/
structure IVCtx where
  bias : ℕ
  sweeptype : Option ℕ
  arrI : List (List RVal)
  arrV : List (List RVal)
  I_offsets : Option RVal
  V_offsets : Option RVal
  I_offset : Option RVal
  V_offset : Option RVal
deriving DecidableEq, Repr

/-- Embedding of `get_offsets` with default `x`/`y` (lines 435-438:
`x = [self.V, self.I][self.bias]`, `y = [self.I, self.V][self.bias]`),
returning the updated context (line 466 stores `self.I_offsets`,
`self.V_offsets`) together with the returned pair (line 467). -/
def get_offsets_ctx (c : IVCtx) (threshold offset : ℚ) (yr : Bool) :
    Except String (IVCtx × RVal × RVal) :=
  match offsets_core c.sweeptype c.bias (if c.bias = 0 then c.arrV else c.arrI)
      (if c.bias = 0 then c.arrI else c.arrV) threshold offset yr with
  | .error e => .error e
  | .ok (io, vo) =>
    .ok ({ c with I_offsets := some io, V_offsets := some vo }, io, vo)

/-- Embedding of `get_offset` (lines 469-494): whole-dataset offsets are the
`np.nanmean` of the per-trace offsets; for scan dimension 1 those are
already scalars, so `np.nanmean` is the identity on them (NaN maps to NaN).
Stores `self.I_offset`, `self.V_offset` (line 493) and returns them
(line 494). -/
def get_offset_ctx (c : IVCtx) (threshold offset : ℚ) (yr : Bool) :
    Except String (IVCtx × RVal × RVal) :=
  match get_offsets_ctx c threshold offset yr with
  | .error e => .error e
  | .ok (c1, io, vo) =>
    .ok ({ c1 with I_offset := some io, V_offset := some vo }, io, vo)

/-- Stable insertion step for an ascending sort of (index, prominence)
pairs. -/
def insertByQ (x : ℕ × ℚ) : List (ℕ × ℚ) → List (ℕ × ℚ)
  | [] => [x]
  | y :: ys => if x.2 ≤ y.2 then x :: y :: ys else y :: insertByQ x ys

/-- Ascending insertion sort of (index, prominence) pairs by prominence. -/
def sortByQ : List (ℕ × ℚ) → List (ℕ × ℚ)
  | [] => []
  | x :: xs => insertByQ x (sortByQ xs)

/-- Numpy `np.argsort` (ascending) of a prominence array. -/
def argsortQ (l : List ℚ) : List ℕ := (sortByQ l.enum).map Prod.fst

/-- Insertion step for an ascending sort of peak indices. -/
def insertN (x : ℕ) : List ℕ → List ℕ
  | [] => [x]
  | y :: ys => if x ≤ y then x :: y :: ys else y :: insertN x ys

/-- Numpy `np.sort` (ascending) of a peak-index array. -/
def sortN : List ℕ → List ℕ
  | [] => []
  | x :: xs => insertN x (sortN xs)

/-- Fancy indexing of the peak-index array by positions from `argsort`. -/
def pyGetN (l : List ℕ) (i : ℕ) : Except String ℕ :=
  match l.get? i with
  | some v => .ok v
  | none => .error "IndexError: index out of bounds"

/-- Embedding of the superconducting-branch interval selection of
`get_2wire_slope_correction` (lines 539-541, identical per 1-D slice in all
three scan-dimension branches):
`slice(*np.sort(peaks1D[0][peaks1D[1]['prominences'].argsort()[-2:][::-1]]))`.
`argsort()[-2:]` keeps the (at most) two highest-prominence positions,
`[::-1]` orders them descending, the peak-index array is fancy-indexed,
`np.sort` orders the chosen indices ascending, and Python's `slice(*args)`
turns them into a slice: two arguments give `(start, stop)`, ONE argument
gives `(None, stop)` - a silent prefix slice, not an error - and zero
arguments raise `TypeError: slice expected at least 1 argument`. -/
def branchSelect (idxs : List ℕ) (proms : List ℚ) :
    Except String (Option ℕ × Option ℕ) := do
  let ord := (argsortQ proms).drop (proms.length - 2)
  let top := ord.reverse
  let chosen ← top.mapM (pyGetN idxs)
  match sortN chosen with
  | [a, b] => .ok (some a, some b)
  | [a] => .ok (none, some a)
  | [] => .error "TypeError: slice expected at least 1 argument"
  | _ => .error "unreachable: at most two prominences are selected"

/-- Keys always placed into the document `save` writes (lines 214-234). -/
def save_base_keys : List String :=
  ["uuid", "path", "measurement_object", "measurement_type", "scan_dimension",
   "sweep_type", "sweeps", "bias", "I", "V", "dVdI", "I_offsets", "V_offsets",
   "I_offset", "V_offset", "x_coordname", "x_unit", "x_vector", "y_coordname",
   "y_unit", "y_vector"]

/-- Python truthiness of `self.V_corr`, which is either `None` (correction
never invoked, line 79) or a numpy array (lines 545-603): `None` is falsy;
an empty array is falsy; a one-element array takes the truth value of its
element (NaN and infinities are truthy); an array with more than one element
raises `ValueError: The truth value of an array with more than one element
is ambiguous`. -/
def npTruthy : Option (List RVal) → Except String Bool
  | none => .ok false
  | some [] => .ok false
  | some [v] => .ok (match v with | .val q => decide (q ≠ 0) | _ => true)
  | some (_ :: _ :: _) =>
    .error "ValueError: The truth value of an array with more than one element is ambiguous"

/-- Embedding of the key set of the document emitted by `save` (lines
213-241): the base keys, the caller-supplied extra keys, and - guarded by
`if self.V_corr:` in line 236 - the corrected-voltage key. -/
def save_doc_keys (extra : List String) (V_corr : Option (List RVal)) :
    Except String (List String) := do
  let t ← npTruthy V_corr
  .ok (save_base_keys ++ extra ++ (if t then ["V_corr"] else []))

/-- Peak-index payload of a peak-finder result: `scipy.signal.find_peaks`
yields an integer index array; the `_peak_finder` wrapper of lines 710-715
and 809-814 substitutes the boolean array `np.array([False])` when no peak
was found. -/
inductive PkIdx where
  | ints (l : List ℕ)
  | bools (l : List Bool)
deriving DecidableEq, Repr

/-- One peak-finder result per 1-D slice: the index payload plus the opaque
pass-through metadata dictionary (`none` models the empty dict `{}` of the
no-peak sentinel). -/
structure PkRes (π : Type) where
  idx : PkIdx
  info : Option π
deriving DecidableEq

/-- The `_peak_finder` wrapper (lines 710-715): when the peak finder returns
an empty index array it substitutes `[np.array([False]), {}]`. -/
def peakWrap {π : Type} (pf : List RVal → List ℕ × π) (x : List RVal) : PkRes π :=
  let ans := pf x
  if ans.1 = [] then ⟨.bools [false], none⟩ else ⟨.ints ans.1, some ans.2⟩

/-- Window offsets `np.arange(int(window)//2)+1` used on both sides of a
candidate peak (lines 936-939 and their copies). -/
def winOffsets (w : ℕ) : List ℤ := (List.range (w / 2)).map (fun k => (k : ℤ) + 1)

/-- Mean of the voltage over the window positions `k + d` for the given
offsets `d` (the `np.mean(V[...], axis=0)` of lines 936-939); fancy indexing
wraps negative positions and raises IndexError outside the array. -/
def winMean (vr : List RVal) (k : ℤ) (offs : List ℤ) : Except String RVal := do
  let vs ← offs.mapM (fun d => pyGet vr (k + d))
  .ok (meanR vs)

/-- Tolerance-band membership `(-tol_offset+V_offset) <= m <= (tol_offset+V_offset)`
of lines 936-939: closed on both ends; false whenever anything is NaN. -/
def inBand (voff : RVal) (tol : ℚ) (m : RVal) : Bool :=
  RVal.leB (RVal.add (RVal.val (-tol)) voff) m &&
    RVal.leB m (RVal.add (RVal.val tol) voff)

/-- Critical-jump mask over an integer peak-index array (lines 935-940):
the window mean before the peak must lie inside the band and the window mean
after it outside. -/
def critMask (voff : RVal) (tol : ℚ) (w : ℕ) (vr : List RVal) (ks : List ℕ) :
    Except String (List Bool) :=
  ks.mapM (fun k => do
    let mb ← winMean vr k ((winOffsets w).map Neg.neg)
    let ma ← winMean vr k (winOffsets w)
    Except.ok (inBand voff tol mb && !(inBand voff tol ma)))

/-- Retrapping-jump mask (lines 946-951): before outside the band, after
inside. -/
def retrMask (voff : RVal) (tol : ℚ) (w : ℕ) (vr : List RVal) (ks : List ℕ) :
    Except String (List Bool) :=
  ks.mapM (fun k => do
    let mb ← winMean vr k ((winOffsets w).map Neg.neg)
    let ma ← winMean vr k (winOffsets w)
    Except.ok (!(inBand voff tol mb) && inBand voff tol ma))

/-- First element of a masked selection, `arr[mask][0]` (lines 943, 954):
raises IndexError when the mask selects nothing. -/
def maskSelHead (ks : List ℕ) (ms : List Bool) : Except String ℕ :=
  match (ks.zip ms).filterMap (fun p => if p.2 then some p.1 else none) with
  | [] => .error "IndexError: index 0 is out of bounds for axis 0 with size 0"
  | k :: _ => .ok k

/-- Per-slice critical-current extraction `I_c1D[peak1D[0][masks_c1D][0]]`
(lines 935-944).  On the no-peak sentinel, `peak1D[0]` is the boolean array
`np.array([False])`, and the mask computation `peak1D[0] - np.tile(...)`
subtracts an integer array from a boolean array, which numpy rejects with a
TypeError before anything else happens. -/
def icsSlice (voff : RVal) (tol : ℚ) (w : ℕ) (ir vr : List RVal) (pk : PkIdx) :
    Except String RVal :=
  match pk with
  | .bools _ => .error "TypeError: numpy boolean subtract, the - operator, is not supported"
  | .ints ks => do
    let ms ← critMask voff tol w vr ks
    let k ← maskSelHead ks ms
    pyGet ir (k : ℤ)

/-- Per-slice retrapping-current extraction
`I_r1D[peak1D[0][masks_r1D][0]+1]` (lines 946-955, note the `+1`); the
boolean no-peak sentinel raises the same TypeError as the critical mask. -/
def irsSlice (voff : RVal) (tol : ℚ) (w : ℕ) (ir vr : List RVal) (pk : PkIdx) :
    Except String RVal :=
  match pk with
  | .bools _ => .error "TypeError: numpy boolean subtract, the - operator, is not supported"
  | .ints ks => do
    let ms ← retrMask voff tol w vr ks
    let k ← maskSelHead ks ms
    pyGet ir ((k : ℤ) + 1)

/-- Numpy fancy indexing `arr[ind1D]` by a peak-index payload: integer
arrays select positions (IndexError outside the array), boolean arrays must
match the array length exactly and select the `True` positions. -/
def fancyIdx (r : List RVal) (pk : PkIdx) : Except String (List RVal) :=
  match pk with
  | .ints ks => ks.mapM (fun k => pyGet r (k : ℤ))
  | .bools bs =>
    if bs.length = r.length then
      .ok ((r.zip bs).filterMap (fun p => if p.2 then some p.1 else none))
    else .error "IndexError: boolean index did not match indexed array"

/-- Per-candidate property record built in lines 957-961 (and the copies):
the pass-through peak-finder metadata merged with the currents, voltages,
Y-signal values and indices at the candidate positions.  `jidx = none`
models the `np.array([np.nan])` placeholder of the custom-sweeptype
IndexError handler (lines 910-912).  The record key for the Y signal is
recovered in the source by caller-frame introspection (line 895); the key
string has no bearing on the verified claims and is not modelled. -/
structure JumpRec (π : Type) where
  info : Option π
  jI : List RVal
  jV : List RVal
  jY : List RVal
  jidx : Option PkIdx
deriving DecidableEq

/-- Property-record assembly for one slice (lines 957-961). -/
def propsSlice {π : Type} (ir vr yv : List RVal) (p : PkRes π) :
    Except String (JumpRec π) := do
  let a ← fancyIdx ir p.idx
  let b ← fancyIdx vr p.idx
  let c ← fancyIdx yv p.idx
  .ok ⟨p.info, a, b, c, some p.idx⟩

/-- The custom-sweeptype record builder `f` of lines 905-912: the same
assembly, but an IndexError is caught and replaced by a record of NaN
placeholders without the pass-through metadata. -/
def customRec {π : Type} (ir vr yv : List RVal) (p : PkRes π) : JumpRec π :=
  match propsSlice ir vr yv p with
  | .ok r0 => r0
  | .error _ => ⟨none, [RVal.nan], [RVal.nan], [RVal.nan], none⟩

/-- Result shape of `_classify_jump`: `split` for the `Ir=True` return
`(I_cs, I_rs, properties)` of line 1048, `crit` for the `Ir=False` return
`(I_cs, properties)` of line 1050, `raw` for the custom-sweeptype return of
unclassified records (lines 913-916). -/
inductive ClassifyRes (π : Type) where
  | split (ics irs : List RVal) (props : List (JumpRec π))
  | crit (ics : List RVal) (props : List (JumpRec π))
  | raw (props : List (JumpRec π))
deriving DecidableEq

/-- The lazy voltage-offset side effect of lines 896-897: when
`self.V_offset` is absent and the sweeptype supports it, `_classify_jump`
first runs `self.get_offset(x=V, y=I)` with its defaults (threshold 20e-6,
offset 0, critical branch) and uses the resulting voltage offset. -/
def resolveVoff (sweeptype : Option ℕ) (bias : ℕ) (V_offset : Option RVal)
    (I V : List (List RVal)) : Except String RVal :=
  match V_offset with
  | some v => .ok v
  | none => (offsets_core sweeptype bias V I (1/50000) 0 false).map (fun p => p.2)

/-- Embedding of `_classify_jump` (lines 865-1050) for scan dimension 1
(data with one sweep axis and one sweep-point axis).  Halfswing classifies
every sweep for both roles (lines 898-900); 4-quadrant restricts the
critical search to even-indexed and the retrapping search to odd-indexed
sweeps (lines 901-903); any other sweeptype returns the raw per-candidate
records (lines 904-916).  `I_cs`, `I_rs` and the property records are all
computed (lines 933-961); `Ir` only selects the returned tuple (lines
1047-1050). -/
def classify_jump_1 {π : Type} (sweeptype : Option ℕ) (bias : ℕ)
    (V_offset : Option RVal) (I V Y : List (List RVal)) (peaks : List (PkRes π))
    (tol : ℚ) (w : ℕ) (Ir : Bool) : Except String (ClassifyRes π) :=
  match sweeptype with
  | some 0 => do
    let voff ← resolveVoff (some 0) bias V_offset I V
    let ics ← (zip3 I V peaks).mapM
      (fun t => icsSlice voff tol w t.1 t.2.1 t.2.2.idx)
    let irs ← (zip3 I V peaks).mapM
      (fun t => irsSlice voff tol w t.1 t.2.1 t.2.2.idx)
    let ps ← (zip4 I V Y peaks).mapM
      (fun t => propsSlice t.1 t.2.1 t.2.2.1 t.2.2.2)
    Except.ok (if Ir then .split ics irs ps else .crit ics ps)
  | some 1 => do
    let voff ← resolveVoff (some 1) bias V_offset I V
    let ics ← (zip3 (evens I) (evens V) (evens peaks)).mapM
      (fun t => icsSlice voff tol w t.1 t.2.1 t.2.2.idx)
    let irs ← (zip3 (odds I) (odds V) (odds peaks)).mapM
      (fun t => irsSlice voff tol w t.1 t.2.1 t.2.2.idx)
    let ps ← (zip4 I V Y peaks).mapM
      (fun t => propsSlice t.1 t.2.1 t.2.2.1 t.2.2.2)
    Except.ok (if Ir then .split ics irs ps else .crit ics ps)
  | _ =>
    .ok (.raw ((zip4 I V Y peaks).map (fun t => customRec t.1 t.2.1 t.2.2.1 t.2.2.2)))

/-- Whole-dataset branch of `get_Ic_deriv` (lines 734-737 with 756) for data
with one sweep axis and one sweep-point axis: run the wrapped peak finder on
every dV/dI slice and hand the results with `Y = dVdI` to `_classify_jump`.
The peak finder with its keyword configuration is the parameter `pf`. -/
def get_Ic_deriv_ds {π : Type} (pf : List RVal → List ℕ × π)
    (sweeptype : Option ℕ) (bias : ℕ) (V_offset : Option RVal)
    (I V dVdI : List (List RVal)) (tol : ℚ) (w : ℕ) (Ir : Bool) :
    Except String (ClassifyRes π) :=
  let peaks := dVdI.map (peakWrap pf)
  classify_jump_1 sweeptype bias V_offset I V dVdI peaks tol w Ir

/-- Numpy `np.linspace(start=a, stop=b, num=n)` on the scalar embedding. -/
def linspaceR (a b : RVal) (n : ℕ) : List RVal :=
  if n = 1 then [a]
  else (List.range n).map (fun k =>
    RVal.add a (RVal.div (RVal.mul (RVal.sub b a) (RVal.val k)) (RVal.val (n - 1))))

/-- Offset-slope removal of line 834 per trace: subtract the straight line
`np.linspace` joining the first and last sweep-point samples. -/
def detrendRow (r : List RVal) : List RVal :=
  List.zipWith RVal.sub r (linspaceR (r.headD RVal.nan) (r.getLastD RVal.nan) r.length)

/-- Whole-dataset branch of `get_Ic_dft` (lines 824-863) for scan dimension
1.  Line 834 computes the detrended `V_corr`; line 841 then evaluates
`dV_smooth = _get_deriv_dft()` - but the inner function defined in line 802
takes `V_corr` as a required positional parameter, so the call raises a
TypeError before any Fourier transform, peak finding or classification can
happen.  (The scan-dimension 2 and 3 branches, lines 836 and 838, differ
only in the detrend axis and reach the same line 841.) -/
def get_Ic_dft_ds1 {π : Type} (pf : List RVal → List ℕ × π)
    (sweeptype : Option ℕ) (bias : ℕ) (V_offset : Option RVal)
    (I V : List (List RVal)) (s tol : ℚ) (w : ℕ) (Ir : Bool) :
    Except String (ClassifyRes π) :=
  let _V_corr := V.map detrendRow
  .error "TypeError: get_deriv_dft missing 1 required positional argument"

/-- N-dimensional array argument of `get_Ic_threshold`: one axis (single
trace, the in-situ branch of line 631) or two axes (whole dataset of scan
dimension 1). -/
inductive NpArr where
  | a1 (r : List RVal)
  | a2 (m : List (List RVal))
deriving DecidableEq, Repr

/-- Number of axes, `len(arr.shape)`. -/
def NpArr.ndim : NpArr → ℕ
  | .a1 _ => 1
  | .a2 _ => 2

/-- Result of `get_Ic_threshold`: the in-situ branch returns the single
scalar `np.nanmax(I_sc)` (line 635); the whole-dataset branch returns
`I_cs` alone or `[I_cs, I_rs]` depending on `Ir` (lines 662-665). -/
inductive ThrRes where
  | single (x : RVal)
  | cs (l : List RVal)
  | csrs (c r : List RVal)
deriving DecidableEq, Repr

/-- Embedding of `get_Ic_threshold` (lines 607-665) for scan dimension 1.
The single-trace branch (lines 631-635) is entered whenever `V` has exactly
one axis; its mask `V >= -threshold + offset, V <= threshold + offset`
dereferences `offset` IMMEDIATELY (line 632), so `offset=None` raises a
TypeError there - the `if offset is None` substitution of the cached
`self.V_offset` (or 0) happens only later, in the whole-dataset branch
(lines 640-644).  The whole-dataset branch masks both collections on copies
(lines 646-649) and applies the topology-dependent extremum selection
(lines 650-661). -/
def get_Ic_threshold_m (V_offset : Option ℚ) (sweeptype : Option ℕ)
    (I V : NpArr) (threshold : ℚ) (offset : Option ℚ) (Ir : Bool) :
    Except String ThrRes :=
  if V.ndim - 1 = 0 then
    match offset with
    | none => .error "TypeError: unsupported operand for NoneType"
    | some off =>
      match I, V with
      | .a1 ir, .a1 vr =>
        let mask := maskRow (-threshold + off) (threshold + off) vr
        let isc := placeRow ir mask
        .ok (.single (nanmaxR isc))
      | _, _ => .error "ValueError: operands could not be broadcast together"
  else
    let off := match offset with
      | some o => o
      | none => match V_offset with
        | none => 0
        | some vo => vo
    match I, V with
    | .a2 im, .a2 vm => do
      let masks := vm.map (maskRow (-threshold + off) (threshold + off))
      let isc := List.zipWith placeRow im masks
      match sweeptype with
      | some 0 => do
        let r0 ← getRow isc 0
        let r1 ← getRow isc 1
        let ics := [nanminR r0, nanmaxR r1]
        let irs := [nanmaxR r0, nanminR r1]
        Except.ok (if Ir then .csrs ics irs else .cs ics)
      | some 1 => do
        let r0 ← getRow isc 0
        let r1 ← getRow isc 1
        let r2 ← getRow isc 2
        let r3 ← getRow isc 3
        let ics := [nanmaxR r0, nanminR r2]
        let irs := [nanmaxR r1, nanminR r3]
        Except.ok (if Ir then .csrs ics irs else .cs ics)
      | _ => .error "NotImplementedError: No algorithm implemented for custom sweeptype"
    | _, _ => .error "ValueError: operands could not be broadcast together"

/-- Differentiation strategy used in witnesses: fails (like a smoothing
filter) whenever the input contains NaN, otherwise returns the input. -/
def c4mode : List RVal → Except String (List RVal) := fun l =>
  if l.any (fun v => v.isNan) then .error "ValueError" else .ok l

/-- Identity differentiation strategy used to exhibit the `load` fallback
dataflow. -/
def modeId : List RVal → Except String (List RVal) := fun l => .ok l

/-- Initial array contents for the `load` fallback dataflow witness: one
sweep, two sweep points; `np.empty` leftover contents are `[1, 1]` for
`self.I[0]` and `[0, 0]` for `self.V[0]`. -/
def c8st0 : LoadArrays :=
  ⟨[[RVal.val 1, RVal.val 1]], [[RVal.val 0, RVal.val 0]], [[RVal.val 9, RVal.val 9]]⟩

/-- Concrete analysis context for the offset-idempotence witness: current
bias, halfswing, two sweeps of two points each. -/
def c7ctx : IVCtx :=
  ⟨0, some 0,
   [[RVal.val 1, RVal.val 2], [RVal.val 3, RVal.val 4]],
   [[RVal.val 0, RVal.val 0], [RVal.val 0, RVal.val 0]],
   none, none, none, none⟩

/-- Peak finder reporting no peak on any slice, with empty metadata. -/
def pfNone : List RVal → List ℕ × Unit := fun _ => ([], ())

/-- Prepared second-call context for the offset-idempotence witness: the
witness context after one `get_offset`. -/
def c7ctx1 : IVCtx :=
  { c7ctx with
      I_offsets := some (RVal.val (5/2))
      V_offsets := some (RVal.val 0)
      I_offset := some (RVal.val (5/2))
      V_offset := some (RVal.val 0) }

/-- Helper: a member trace is no longer than the maximal trace length. -/
theorem mem_length_le_maxLenT {ts : List (List RVal)} {t : List RVal} (h : t ∈ ts) :
    t.length ≤ maxLenT ts := by
  induction ts with
  | nil => cases h
  | cons a l ih =>
    rcases List.mem_cons.mp h with h1 | h2
    · subst h1; exact le_max_left _ _
    · exact le_trans (ih h2) (le_max_right _ _)

/-- Helper: within-range lookup into a replicated list. -/
theorem get_replicate_of_lt {α : Type} (a : α) :
    ∀ {n k : ℕ}, k < n → (List.replicate n a).get? k = some a := by
  intro n
  induction n with
  | zero => intro k h; omega
  | succ m ih =>
    intro k h
    cases k with
    | zero => rfl
    | succ k2 => exact ih (by omega)

/-- C1: the claim states that the whole-dataset `get_Ic_dft` detrends `V`,
forward-transforms, multiplies by the smoothed derivative kernel,
inverse-transforms, peak-finds and returns classified critical currents.
The code cannot do this: after computing the detrended `V_corr` (line 834),
line 841 calls the inner function `_get_deriv_dft` (defined in line 802 with
the required positional parameter `V_corr`) with NO argument, so every
whole-dataset call raises a TypeError before any transform or peak finding.
This theorem evaluates the embedded whole-dataset branch: for every input it
returns the TypeError. -/
theorem get_Ic_dft_whole_dataset_type_error {π : Type} (pf : List RVal → List ℕ × π)
    (st : Option ℕ) (b : ℕ) (Voff : Option RVal) (I V : List (List RVal))
    (s tol : ℚ) (w : ℕ) (r : Bool) :
    get_Ic_dft_ds1 pf st b Voff I V s tol w r =
      .error "TypeError: get_deriv_dft missing 1 required positional argument" := rfl

/-- C2 counterexample: the claim states that a two-sweep set failing the
half-swing relation is classified custom (None).  In the code the
`len(sweeps) == 2` branch assigns `self.sweeptype` only when the relation
holds, so with a previously cached sweeptype (here 0, e.g. from an earlier
half-swing classification) the mismatching pair `[(0,1,0.1), (2,3,0.1)]`
returns the stale 0, not None. -/
theorem get_sweeptype_stale_not_custom :
    get_sweeptype (some 0) [⟨0, 1, 1/10⟩, ⟨2, 3, 1/10⟩] = some 0 ∧
    get_sweeptype (some 0) [⟨0, 1, 1/10⟩, ⟨2, 3, 1/10⟩] ≠ none := by
  constructor
  · decide
  · decide

/-- C2 amended: `get_sweeptype` returns half-swing (0) for two sweeps exactly
when sweep 0 reordered as (stop, start, step) equals sweep 1's
(start, stop, step) componentwise, 4-quadrant (1) for four sweeps exactly
when that relation holds for the pairs (0,1) and (2,3), and custom (None)
for any OTHER COUNT; on a two- or four-sweep mismatch it returns the
previously cached sweeptype unchanged (so such a set is classified custom
only when no topology was cached before). -/
theorem get_sweeptype_characterization (cur : Option ℕ) (sweeps : List Sweep) :
    get_sweeptype cur sweeps =
      match sweeps with
      | [a, b] =>
        if a.stop = b.start ∧ a.start = b.stop ∧ a.step = b.step then some 0 else cur
      | [a, b, c, d] =>
        if (a.stop = b.start ∧ a.start = b.stop ∧ a.step = b.step) ∧
           (c.stop = d.start ∧ c.start = d.stop ∧ c.step = d.step) then some 1 else cur
      | _ => none := by
  match sweeps with
  | [] => rfl
  | [a] => rfl
  | [a, b] => simp [get_sweeptype, hsPair, and_assoc]
  | [a, b, c] => rfl
  | [a, b, c, d] => simp [get_sweeptype, hsPair, and_assoc]
  | a :: b :: c :: d :: e :: rest => rfl

/-- C3: the claim states that fewer than two detected peaks makes
`get_2wire_slope_correction` surface an explicit branch-interval-undefined
error.  The code does not: with exactly ONE peak (here index 5, prominence
3), `slice(*np.sort(...))` receives one argument and silently becomes the
prefix slice `slice(None, 5)` - the correction proceeds with a fit over the
trace prefix and no error is raised; with ZERO peaks, `slice()` receives no
argument and raises a bare `TypeError: slice expected at least 1 argument`,
an incidental crash rather than an explicit branch-interval error. -/
theorem branch_select_fewer_than_two_peaks :
    branchSelect [5] [3] = .ok (none, some 5) ∧
    branchSelect [] [] = .error "TypeError: slice expected at least 1 argument" :=
  ⟨rfl, rfl⟩

/-- C4: when the chosen differentiation strategy fails on an array of the
form prefix-then-trailing-NaN-run, `get_dydx` differentiates the NaN-free
prefix and re-appends the same count of NaNs: the result is exactly the
strategy applied to the prefix followed by the two NaN entries, with no
fabricated numeric value in their place. -/
theorem get_dydx_nan_tail_preserved (mode : List RVal → Except String (List RVal))
    (p r : List RVal) (e : String)
    (hfin : ∀ v ∈ p, v.isNan = false)
    (hfail : mode (p ++ [RVal.nan, RVal.nan]) = .error e)
    (hok : mode p = .ok r) :
    get_dydx_noX mode (p ++ [RVal.nan, RVal.nan]) = .ok (r ++ [RVal.nan, RVal.nan]) := by
  have hnn1 : ([RVal.nan, RVal.nan] : List RVal).filter (fun v => !v.isNan) = [] := rfl
  have hnn2 : ([RVal.nan, RVal.nan] : List RVal).filter (fun v => v.isNan) =
      [RVal.nan, RVal.nan] := rfl
  have h1 : (p ++ [RVal.nan, RVal.nan]).filter (fun v => !v.isNan) = p := by
    rw [List.filter_append]
    have hp : p.filter (fun v => !v.isNan) = p := by
      apply List.filter_eq_self.mpr
      intro a ha
      simp [hfin a ha]
    rw [hp, hnn1, List.append_nil]
  have h2 : (p ++ [RVal.nan, RVal.nan]).filter (fun v => v.isNan) = [RVal.nan, RVal.nan] := by
    rw [List.filter_append]
    have hp : p.filter (fun v => v.isNan) = [] := by
      apply List.filter_eq_nil_iff.mpr
      intro a ha
      simp [hfin a ha]
    rw [hp]
    rfl
  unfold get_dydx_noX
  rw [hfail, h1, hok, h2]

/-- C4 witness: differentiating `[1, 2, NaN, NaN]` with a strategy that
rejects NaN input yields the strategy applied to `[1, 2]` followed by the
two NaNs. -/
theorem get_dydx_nan_tail_preserved_witness :
    get_dydx_noX c4mode ([RVal.val 1, RVal.val 2] ++ [RVal.nan, RVal.nan]) =
      .ok ([RVal.val 1, RVal.val 2] ++ [RVal.nan, RVal.nan]) :=
  get_dydx_nan_tail_preserved c4mode [RVal.val 1, RVal.val 2] [RVal.val 1, RVal.val 2]
    "ValueError" (by decide) (by rfl) (by rfl)

/-- C5: the trace family assembled by `load` has trailing-axis size equal to
the maximal per-trace length, every position below a trace's own length
holds exactly the source value, and every position from its length up to
the maximal length holds NaN. -/
theorem load_padding_spec (ts : List (List RVal)) (j : ℕ) (t : List RVal)
    (hj : ts.get? j = some t) :
    (assemble ts).get? j = some (padTrace (maxLenT ts) t) ∧
    (padTrace (maxLenT ts) t).length = maxLenT ts ∧
    (∀ k, k < t.length → (padTrace (maxLenT ts) t).get? k = t.get? k) ∧
    (∀ k, t.length ≤ k → k < maxLenT ts → (padTrace (maxLenT ts) t).get? k = some RVal.nan) := by
  have hmem : t ∈ ts := List.get?_mem hj
  have hle : t.length ≤ maxLenT ts := mem_length_le_maxLenT hmem
  refine ⟨?_, ?_, ?_, ?_⟩
  · unfold assemble
    rw [List.get?_map, hj]
    rfl
  · unfold padTrace
    by_cases h : maxLenT ts - t.length = 0
    · simp only [h, if_pos rfl, if_true]
      omega
    · rw [if_neg h, List.length_append, List.length_replicate]
      omega
  · intro k hk
    unfold padTrace
    by_cases h : maxLenT ts - t.length = 0
    · rw [if_pos h]
    · rw [if_neg h]
      exact List.get?_append hk
  · intro k hk1 hk2
    unfold padTrace
    by_cases h : maxLenT ts - t.length = 0
    · omega
    · rw [if_neg h, List.get?_append_right hk1]
      exact get_replicate_of_lt RVal.nan (by omega)

/-- C5 witness: assembling the family `[[1], [2, 3]]` pads the first trace
to the maximal length 2 with one NaN, preserving its value at position 0. -/
theorem load_padding_spec_witness :
    (assemble [[RVal.val 1], [RVal.val 2, RVal.val 3]]).get? 0 =
      some (padTrace (maxLenT [[RVal.val 1], [RVal.val 2, RVal.val 3]]) [RVal.val 1]) ∧
    (padTrace (maxLenT [[RVal.val 1], [RVal.val 2, RVal.val 3]]) [RVal.val 1]).length =
      maxLenT [[RVal.val 1], [RVal.val 2, RVal.val 3]] ∧
    (∀ k, k < ([RVal.val 1] : List RVal).length →
      (padTrace (maxLenT [[RVal.val 1], [RVal.val 2, RVal.val 3]]) [RVal.val 1]).get? k =
        ([RVal.val 1] : List RVal).get? k) ∧
    (∀ k, ([RVal.val 1] : List RVal).length ≤ k →
      k < maxLenT [[RVal.val 1], [RVal.val 2, RVal.val 3]] →
      (padTrace (maxLenT [[RVal.val 1], [RVal.val 2, RVal.val 3]]) [RVal.val 1]).get? k =
        some RVal.nan) :=
  load_padding_spec [[RVal.val 1], [RVal.val 2, RVal.val 3]] 0 [RVal.val 1] rfl

/-- C6: the claim states that `save` completes and the emitted document
contains `V_corr` whenever ohmic slope correction has been invoked.  The
code cannot do this: line 236 evaluates `if self.V_corr:` on the computed
numpy array, and the truth value of an array with more than one element
(any real corrected dataset) is ambiguous, so `save` raises a ValueError
instead of completing.  When correction has not been invoked `V_corr` is
`None`, the guard is falsy, and the key is indeed absent. -/
theorem save_V_corr_value_error :
    save_doc_keys [] (some [RVal.val 1, RVal.val 2]) =
      .error "ValueError: The truth value of an array with more than one element is ambiguous" ∧
    save_doc_keys [] none = .ok save_base_keys := ⟨rfl, rfl⟩

/-- C7: calling whole-dataset offset estimation twice in succession on an
unchanged analysis context returns identical `(I_offset, V_offset)` values
both times, and neither call modifies the input current/voltage arrays (the
masking acts on `np.copy`-created arrays, lines 441-443). -/
theorem get_offset_idempotent (c : IVCtx) (threshold offset : ℚ) (yr : Bool)
    (c1 : IVCtx) (i1 v1 : RVal)
    (h : get_offset_ctx c threshold offset yr = .ok (c1, i1, v1)) :
    c1.arrI = c.arrI ∧ c1.arrV = c.arrV ∧
    ∃ c2 : IVCtx, get_offset_ctx c1 threshold offset yr = .ok (c2, i1, v1) ∧
      c2.arrI = c.arrI ∧ c2.arrV = c.arrV := by
  unfold get_offset_ctx get_offsets_ctx at h ⊢
  cases hco : offsets_core c.sweeptype c.bias (if c.bias = 0 then c.arrV else c.arrI)
      (if c.bias = 0 then c.arrI else c.arrV) threshold offset yr with
  | error e =>
    rw [hco] at h
    exact absurd h (by simp)
  | ok p =>
    rw [hco] at h
    obtain ⟨p1, p2⟩ := p
    simp only [Except.ok.injEq, Prod.mk.injEq] at h
    obtain ⟨hc1, hi, hv⟩ := h
    subst hc1
    subst hi
    subst hv
    refine ⟨rfl, rfl, ?_⟩
    refine ⟨{ c with I_offsets := some p1, V_offsets := some p2, I_offset := some p1, V_offset := some p2 }, ?_, rfl, rfl⟩
    rw [show (offsets_core c.sweeptype c.bias (if c.bias = 0 then c.arrV else c.arrI)
      (if c.bias = 0 then c.arrI else c.arrV) threshold offset yr) = .ok (p1, p2) from hco]

/-- C7 witness: on a concrete current-bias halfswing context the first
whole-dataset offset estimation returns `(5/2, 0)`, the second call repeats
exactly those values, and the loaded arrays are untouched by both calls. -/
theorem get_offset_idempotent_witness :
    c7ctx1.arrI = c7ctx.arrI ∧ c7ctx1.arrV = c7ctx.arrV ∧
    ∃ c2 : IVCtx, get_offset_ctx c7ctx1 (1/50000) 0 false =
        .ok (c2, RVal.val (5/2), RVal.val 0) ∧
      c2.arrI = c7ctx.arrI ∧ c2.arrV = c7ctx.arrV :=
  get_offset_idempotent c7ctx (1/50000) 0 false c7ctx1 (RVal.val (5/2)) (RVal.val 0)
    (by with_unfolding_all rfl)

/-- C8: the claim states that when the stored dV/dI dataset of sweep `j` is
not found, `load` stores `get_dydx` applied to sweep j's loaded current and
voltage traces.  The code instead differentiates `self.I[j]` and
`self.V[j]` (line 143), which at that moment still hold the unspecified
`np.empty` contents of line 135 - the loaded traces are assigned to those
rows only afterwards (lines 146-154).  With leftover contents `[1, 1]` /
`[0, 0]`, loaded traces `i = [1, 2]`, `v = [2, 4]` and the identity
strategy, the stored row is `[0, 0]` while `get_dydx` on the loaded traces
yields `[2, 2]`. -/
theorem load_dvdi_fallback_uses_uninitialized :
    load_body modeId 2 c8st0 0 [RVal.val 1, RVal.val 2] [RVal.val 2, RVal.val 4] none true =
      .ok ⟨[[RVal.val 1, RVal.val 2]], [[RVal.val 2, RVal.val 4]], [[RVal.val 0, RVal.val 0]]⟩ ∧
    get_dydx_x modeId [RVal.val 2, RVal.val 4] [RVal.val 1, RVal.val 2] =
      .ok [RVal.val 2, RVal.val 2] ∧
    ([[RVal.val 0, RVal.val 0]] : List (List RVal)) ≠ [[RVal.val 2, RVal.val 2]] := by
  refine ⟨by with_unfolding_all rfl, by with_unfolding_all rfl, by decide⟩

/-- C9: the claim states that a slice with zero detected peaks still yields
a well-formed empty result from `get_Ic_deriv`.  The code substitutes the
sentinel `[np.array([False]), {}]` for such a slice (lines 710-715), but the
halfswing/4-quadrant classification then computes
`peak1D[0] - np.tile(...)` (line 936), subtracting an integer array from
that boolean sentinel, which numpy rejects with a TypeError - the call
fails instead of producing an empty result.  This theorem evaluates the
embedded whole-dataset `get_Ic_deriv` on a halfswing context whose peak
finder reports no peaks. -/
theorem get_Ic_deriv_zero_peaks_type_error :
    get_Ic_deriv_ds pfNone (some 0) 0 (some (RVal.val 0))
      [[RVal.val 1, RVal.val 2, RVal.val 3]]
      [[RVal.val 0, RVal.val 0, RVal.val 0]]
      [[RVal.val 0, RVal.val 0, RVal.val 0]] (1/50000) 5 false =
    .error "TypeError: numpy boolean subtract, the - operator, is not supported" := rfl

/-- C10: in the single-trace branch of `get_Ic_threshold` (one-axis `V`),
the mask computation dereferences `offset` before any check that it was
supplied, so omitting `offset` raises a TypeError; the whole-dataset branch
instead substitutes the cached `self.V_offset` (or 0) when `offset` is
None - omitting `offset` there is the same as passing that substitute. -/
theorem get_Ic_threshold_offset_order :
    (∀ (ir vr : List RVal) (Voff : Option ℚ) (st : Option ℕ) (th : ℚ) (b : Bool),
      get_Ic_threshold_m Voff st (.a1 ir) (.a1 vr) th none b =
        .error "TypeError: unsupported operand for NoneType") ∧
    (∀ (im vm : List (List RVal)) (Voff : Option ℚ) (st : Option ℕ) (th : ℚ) (b : Bool),
      get_Ic_threshold_m Voff st (.a2 im) (.a2 vm) th none b =
        get_Ic_threshold_m Voff st (.a2 im) (.a2 vm) th (some (Voff.getD 0)) b) := by
  constructor
  · intro ir vr Voff st th b
    rfl
  · intro im vm Voff st th b
    cases Voff <;> rfl
